import Mathlib

/-!
Verification of the application-form save orchestration of the
application-tracker front end (src/app/application/application-form/application-form.ts,
together with the data model in src/app/models/api-interfaces.ts).

The embedding translates the component logic into pure Lean functions:

* the form value tree held by the reactive form becomes `FormValue`;
* `loadApplicationForEdit` (the success path of its subscription) becomes a
  pure state transformer on `EditorState`;
* the payload builders `buildCreateContactPayload`, `buildUpdateContactPayload`,
  `buildApplicationPayload`, `buildCompanyPayload` and the inline create-mode
  payload of `onSubmit` become pure functions on `FormValue`;
* the rx pipelines built by `onSubmit`, `handleUpdates` and
  `handleCreateContactAndUpdates` become values of `SubmitProgram`:
  `allOf calls` models a single `forkJoin` phase whose calls are all issued
  together, and `createContactThen p k` models
  `createContact(p).pipe(switchMap k)`, whose continuation only runs after the
  create call resolves. `runProgram` executes a program against a store model
  and returns the list of issued calls in issue order plus the overall outcome;
* the body of the status `valueChanges` subscriber in
  `setupConditionalValidation` becomes `onStatusChange` acting on the
  required-validator flags of the five date controls.

JavaScript truthiness is made explicit: `strOrNull` and `intOrNull` translate
the `x || null` idiom, `keepTruthy` translates `if (value)` on string fields,
and `idTruthy` translates `if (this.currentContactId)` on a number-or-null id.
-/

namespace AppTracker

/-- Lifecycle status of an application, from `ApplicationStatus` in
src/app/models/api-interfaces.ts. -/
inductive ApplicationStatus where
  | DRAFT
  | APPLIED
  | INTERVIEW
  | OFFER
  | REJECTED
  | WITHDRAWN
deriving DecidableEq, Repr

/-- The JavaScript idiom `v || null` on a string-or-null value: the empty
string is falsy and becomes null; null stays null. -/
def strOrNull : Option String → Option String
  | none => none
  | some s => if s = "" then none else some s

/-- The JavaScript idiom `v || null` on a number-or-null value: 0 is falsy and
becomes null; null stays null. -/
def intOrNull : Option Int → Option Int
  | none => none
  | some n => if n = 0 then none else some n

/-- `if (value)` on a string field when building a payload: the field is kept
exactly when the string is non-empty (JavaScript truthiness). -/
def keepTruthy (s : String) : Option String :=
  if s = "" then none else some s

/-- JavaScript truthiness of `this.currentContactId` (type number or null):
false for null and for the number 0, true otherwise. -/
def idTruthy : Option Nat → Bool
  | none => false
  | some n => n ≠ 0

/-- A company record, from `Company` in src/app/models/api-interfaces.ts. -/
structure Company where
  id : Nat
  name : String
  website : Option String
  industry : String
deriving DecidableEq, Repr

/-- A contact record, from `Contact` in src/app/models/api-interfaces.ts. -/
structure Contact where
  id : Nat
  first_name : String
  last_name : String
  email : String
  phone : String
  position : String
  company : Nat
deriving DecidableEq, Repr

/-- A note record, from `Note` in src/app/models/api-interfaces.ts. -/
structure Note where
  id : Nat
  text : String
  created_at : String
deriving DecidableEq, Repr

/-- A fetched application with its embedded company, optional contact and
notes, from `Application` in src/app/models/api-interfaces.ts. -/
structure Application where
  id : Nat
  job_title : String
  company : Company
  contact : Option Contact
  status : ApplicationStatus
  applied_on : Option String
  interview_on : Option String
  offer_on : Option String
  rejected_on : Option String
  follow_up_on : Option String
  job_posting_link : String
  salary_expectation : Option Int
  notes : List Note
deriving DecidableEq, Repr

/-- Value of one element of the `notes` FormArray: an id control (null for a
new note) and a text control. -/
structure NoteFormValue where
  id : Option Nat
  text : String
deriving DecidableEq, Repr

/-- Value of the `details.company` form group. The website control starts as
the empty string but is patched with the fetched company website, which may be
null, so its value is string-or-null. -/
structure CompanyFormValue where
  name : String
  industry : String
  website : Option String
deriving DecidableEq, Repr

/-- Value of the `details.contact` form group, as created by `createForm`
(lines 133 to 143): an id control initialised to null and five string controls
initialised to the empty string. -/
structure ContactFormValue where
  id : Option Nat
  first_name : String
  last_name : String
  email : String
  position : String
  phone : String
deriving DecidableEq, Repr

/-- Value of the whole edit-mode reactive form, as created by `createForm`
(lines 108 to 148): the scalar application controls plus the `notes` FormArray
and the `details` group. Create mode builds only the scalar controls; the
create-mode logic below reads only those fields. -/
structure FormValue where
  job_title : String
  salary_expectation : Option Int
  company_id : Option Nat
  status : ApplicationStatus
  applied_on : Option String
  interview_on : Option String
  offer_on : Option String
  rejected_on : Option String
  follow_up_on : Option String
  notes : List NoteFormValue
  company : CompanyFormValue
  contact : ContactFormValue
deriving DecidableEq, Repr

/-- The component state that `loadApplicationForEdit` reads and writes: the
form value tree and the `currentContactId` field. -/
structure EditorState where
  form : FormValue
  currentContactId : Option Nat
deriving DecidableEq, Repr

/-- The edit-mode form value right after `createForm` (lines 108 to 148):
empty strings, null ids and dates, status DRAFT, no notes. -/
def initialFormValue : FormValue :=
  { job_title := ""
    salary_expectation := none
    company_id := none
    status := ApplicationStatus.DRAFT
    applied_on := none
    interview_on := none
    offer_on := none
    rejected_on := none
    follow_up_on := none
    notes := []
    company := { name := "", industry := "", website := some "" }
    contact := { id := none, first_name := "", last_name := "", email := "",
                 position := "", phone := "" } }

/-- Component state right after `ngOnInit` built the edit-mode form. -/
def initialEditorState : EditorState :=
  { form := initialFormValue, currentContactId := none }

/-- The success path of `loadApplicationForEdit` (lines 217 to 252), as a pure
transformer of the component state.

Step by step, following the source:
the method first resets `currentContactId` to null; `patchValue(application)`
then overwrites the scalar controls whose names occur as keys of the fetched
application (job_title, salary_expectation, status and the five dates — the
company, contact, id, status_display, created_at and job_posting_link keys
have no matching top-level control and are ignored, and the notes FormArray is
cleared and rebuilt from the fetched notes right afterwards, so its final
content is exactly the fetched list); `company_id` is set to the fetched
company id and `details.company` is patched from the fetched company; finally
`details.contact` is patched — and `currentContactId` set — ONLY when the
fetched application has a non-null contact. When the contact is null the
contact group is left untouched, keeping whatever values it held before. -/
def loadApplicationForEdit (st : EditorState) (app : Application) : EditorState :=
  let patched : FormValue :=
    { st.form with
      job_title := app.job_title
      salary_expectation := app.salary_expectation
      status := app.status
      applied_on := app.applied_on
      interview_on := app.interview_on
      offer_on := app.offer_on
      rejected_on := app.rejected_on
      follow_up_on := app.follow_up_on
      company_id := some app.company.id
      company := { name := app.company.name, industry := app.company.industry,
                   website := app.company.website }
      notes := app.notes.map (fun n => { id := some n.id, text := n.text }) }
  match app.contact with
  | some c =>
      { form := { patched with
                  contact := { id := some c.id, first_name := c.first_name,
                               last_name := c.last_name, email := c.email,
                               position := c.position, phone := c.phone } }
        currentContactId := some c.id }
  | none => { form := patched, currentContactId := none }

/-- Payload of a contact-create call, from `CreateContactPayload` in
src/app/models/api-interfaces.ts: names and company id required, the other
fields present only when set. -/
structure CreateContactPayload where
  first_name : String
  last_name : String
  company_id : Option Nat
  email : Option String
  position : Option String
  phone : Option String
deriving DecidableEq, Repr

/-- Payload of a contact-update call: every contact field except the id,
each present (some) or absent (none). -/
structure UpdateContactPayload where
  first_name : Option String
  last_name : Option String
  email : Option String
  position : Option String
  phone : Option String
deriving DecidableEq, Repr

/-- `Object.keys(payload).length > 0` negated: true when no field is present. -/
def UpdateContactPayload.isEmpty (p : UpdateContactPayload) : Bool :=
  p.first_name = none && p.last_name = none && p.email = none &&
    p.position = none && p.phone = none

/-- Payload of an application create or update call, from
`CreateApplicationPayload` in src/app/models/api-interfaces.ts. The notes
field is optional: none means the key is absent from the payload. -/
structure ApplicationPayload where
  job_title : String
  salary_expectation : Option Int
  company_id : Option Nat
  contact_id : Option Nat
  status : ApplicationStatus
  notes : Option (List NoteFormValue)
  applied_on : Option String
  interview_on : Option String
  offer_on : Option String
  rejected_on : Option String
  follow_up_on : Option String
deriving DecidableEq, Repr

/-- Payload of a company-update call, as built by `buildCompanyPayload`. -/
structure CompanyPayload where
  name : String
  industry : String
  website : Option String
deriving DecidableEq, Repr

/-- `buildCreateContactPayload` (lines 444 to 457): names and company id
always present; email, position and phone added only when truthy. -/
def buildCreateContactPayload (formValue : FormValue) (contactData : ContactFormValue) :
    CreateContactPayload :=
  { first_name := contactData.first_name
    last_name := contactData.last_name
    company_id := formValue.company_id
    email := keepTruthy contactData.email
    position := keepTruthy contactData.position
    phone := keepTruthy contactData.phone }

/-- `buildUpdateContactPayload` (lines 463 to 469): drop the id, then keep
exactly the truthy (non-empty) fields. -/
def buildUpdateContactPayload (contactData : ContactFormValue) : UpdateContactPayload :=
  { first_name := keepTruthy contactData.first_name
    last_name := keepTruthy contactData.last_name
    email := keepTruthy contactData.email
    position := keepTruthy contactData.position
    phone := keepTruthy contactData.phone }

/-- `buildApplicationPayload` (lines 475 to 492): full scalar set with the
`x || null` idiom on salary and dates, the given contact id, and the complete
notes list from the form (the notes key is always present here). -/
def buildApplicationPayload (formValue : FormValue) (contactId : Option Nat) :
    ApplicationPayload :=
  { job_title := formValue.job_title
    salary_expectation := intOrNull formValue.salary_expectation
    company_id := formValue.company_id
    contact_id := contactId
    status := formValue.status
    notes := some formValue.notes
    applied_on := strOrNull formValue.applied_on
    interview_on := strOrNull formValue.interview_on
    offer_on := strOrNull formValue.offer_on
    rejected_on := strOrNull formValue.rejected_on
    follow_up_on := strOrNull formValue.follow_up_on }

/-- The payload built inline in the create-mode branch of `onSubmit`
(lines 317 to 329): same `x || null` treatment of salary and dates, contact_id
set to null, and no notes key (the notes line is commented out in the source). -/
def createModeApplicationPayload (formValue : FormValue) : ApplicationPayload :=
  { job_title := formValue.job_title
    salary_expectation := intOrNull formValue.salary_expectation
    company_id := formValue.company_id
    contact_id := none
    status := formValue.status
    notes := none
    applied_on := strOrNull formValue.applied_on
    interview_on := strOrNull formValue.interview_on
    offer_on := strOrNull formValue.offer_on
    rejected_on := strOrNull formValue.rejected_on
    follow_up_on := strOrNull formValue.follow_up_on }

/-- `buildCompanyPayload` (lines 498 to 505): name and industry as edited,
website with the `x || null` idiom. -/
def buildCompanyPayload (formValue : FormValue) : CompanyPayload :=
  { name := formValue.company.name
    industry := formValue.company.industry
    website := strOrNull formValue.company.website }

/-- `contactFormHasData` of `onSubmit` (lines 300 to 301): both name fields
truthy, i.e. both non-empty. -/
def contactFormHasData (contactData : ContactFormValue) : Bool :=
  contactData.first_name ≠ "" && contactData.last_name ≠ ""

/-- One remote call issued by the component through the Api service. -/
inductive ApiCall where
  | createContact (p : CreateContactPayload)
  | updateContact (id : Nat) (p : UpdateContactPayload)
  | deleteContact (id : Nat)
  | updateApplication (id : String) (p : ApplicationPayload)
  | updateCompany (id : Option Nat) (p : CompanyPayload)
  | createApplication (p : ApplicationPayload)
deriving DecidableEq, Repr

/-- An error returned by a remote call. -/
structure ApiError where
  code : Nat
deriving DecidableEq, Repr

/-- The rx pipeline a submission builds.

`allOf calls` is a `forkJoin` (or a single subscription when the list is a
singleton): every call in the list is issued at once, with no ordering
dependency among them. `createContactThen p k` is
`createContact(p).pipe(switchMap k)`: the create call is issued alone, and the
continuation runs only once it has resolved, receiving the created contact. -/
inductive SubmitProgram where
  | allOf (calls : List ApiCall)
  | createContactThen (p : CreateContactPayload) (k : Contact → SubmitProgram)

/-- First error among the handler results of a list of calls issued together,
matching forkJoin surfacing the first failure. -/
def firstError (h : ApiCall → Except ApiError Contact) : List ApiCall → Option ApiError
  | [] => none
  | c :: cs =>
    match h c with
    | Except.error e => some e
    | Except.ok _ => firstError h cs

/-- Execute a submit program against a store model `h` (which answers every
call; only the answer to a contact-create call is ever read, as in the
source). Returns the calls actually issued, in issue order, and the overall
outcome: none for success, some e for the failure surfaced to the subscriber.
A failing create inside `createContactThen` issues nothing further. -/
def runProgram (h : ApiCall → Except ApiError Contact) : SubmitProgram → List ApiCall × Option ApiError
  | SubmitProgram.allOf calls => (calls, firstError h calls)
  | SubmitProgram.createContactThen p k =>
    match h (ApiCall.createContact p) with
    | Except.error e => ([ApiCall.createContact p], some e)
    | Except.ok c =>
      let rest := runProgram h (k c)
      (ApiCall.createContact p :: rest.1, rest.2)

/-- `handleCreateContactAndUpdates` (lines 352 to 381): create the contact,
then — only after the create resolved — forkJoin the application update
(with the returned contact id) and the company update. -/
def handleCreateContactAndUpdates (appId : String) (formValue : FormValue)
    (contactData : ContactFormValue) : SubmitProgram :=
  SubmitProgram.createContactThen (buildCreateContactPayload formValue contactData)
    (fun newContact =>
      SubmitProgram.allOf
        [ApiCall.updateApplication appId
            (buildApplicationPayload formValue (some newContact.id)),
         ApiCall.updateCompany formValue.company_id (buildCompanyPayload formValue)])

/-- `handleUpdates` (lines 393 to 438): build the observables list —
optionally a contact delete or a guarded contact update, then always the
application update (with the possibly cleared contact id) and the company
update — and forkJoin them all in one phase. The outer condition
`if (this.currentContactId)` is JavaScript-truthy: null and 0 skip the
contact block and leave `contactIdForApplication` at its initial value. -/
def handleUpdates (appId : String) (currentContactId : Option Nat)
    (formValue : FormValue) (contactData : ContactFormValue)
    (hasData : Bool) : SubmitProgram :=
  let contactStep : List ApiCall × Option Nat :=
    match currentContactId with
    | some cid =>
      if cid ≠ 0 then
        if !hasData then ([ApiCall.deleteContact cid], none)
        else
          let p := buildUpdateContactPayload contactData
          (if p.isEmpty then [] else [ApiCall.updateContact cid p], some cid)
      else ([], some cid)
    | none => ([], none)
  SubmitProgram.allOf
    (contactStep.1 ++
      [ApiCall.updateApplication appId (buildApplicationPayload formValue contactStep.2),
       ApiCall.updateCompany formValue.company_id (buildCompanyPayload formValue)])

/-- The edit-mode branch of `onSubmit` (lines 289 to 311) on a valid form:
read the contact data, compute `contactFormHasData` and `shouldCreateContact`
(the latter with JavaScript truthiness on `currentContactId`), and dispatch to
`handleCreateContactAndUpdates` or `handleUpdates`. -/
def onSubmitEdit (appId : String) (currentContactId : Option Nat)
    (formValue : FormValue) : SubmitProgram :=
  let contactData := formValue.contact
  let hasData := contactFormHasData contactData
  let shouldCreateContact := !idTruthy currentContactId && hasData
  if shouldCreateContact then
    handleCreateContactAndUpdates appId formValue contactData
  else
    handleUpdates appId currentContactId formValue contactData hasData

/-- The create-mode branch of `onSubmit` (lines 314 to 340) on a valid form:
a single createApplication call with the inline payload. -/
def onSubmitCreate (formValue : FormValue) : SubmitProgram :=
  SubmitProgram.allOf [ApiCall.createApplication (createModeApplicationPayload formValue)]

/-- The resolved per-submission contact operation. -/
inductive ContactOp where
  | noop : ContactOp
  | create : CreateContactPayload → ContactOp
  | delete : Nat → ContactOp
  | update : Nat → UpdateContactPayload → ContactOp
deriving DecidableEq, Repr

/-- The contact diff decision, read off the dispatch in `onSubmit`
(lines 299 to 306) together with the contact branch of `handleUpdates`
(lines 402 to 417): create when no current contact id and both names present;
otherwise, with a current contact id, delete when the names are not both
present, else update with the truthy-field payload unless that payload is
empty; otherwise no contact operation. -/
def contactDecision (currentContactId : Option Nat) (formValue : FormValue)
    (contactData : ContactFormValue) : ContactOp :=
  let hasData := contactFormHasData contactData
  if !idTruthy currentContactId && hasData then
    ContactOp.create (buildCreateContactPayload formValue contactData)
  else
    match currentContactId with
    | some cid =>
      if cid ≠ 0 then
        if !hasData then ContactOp.delete cid
        else
          let p := buildUpdateContactPayload contactData
          if p.isEmpty then ContactOp.noop else ContactOp.update cid p
      else ContactOp.noop
    | none => ContactOp.noop

/-- The five nullable date fields of an application. -/
inductive DateField where
  | applied_on
  | interview_on
  | offer_on
  | rejected_on
  | follow_up_on
deriving DecidableEq, Repr

/-- Required-validator flags of the five date controls. -/
structure DateValidators where
  applied_on : Bool
  interview_on : Bool
  offer_on : Bool
  rejected_on : Bool
  follow_up_on : Bool
deriving DecidableEq, Repr

/-- The `updateValidators` helper inside `setupConditionalValidation`
(lines 171 to 178): clear the validators of the control, then set the
required validator exactly when asked — the previous flag is discarded. -/
def updateValidators (_old : Bool) (required : Bool) : Bool :=
  required

/-- The body of the status valueChanges subscriber in
`setupConditionalValidation` (lines 164 to 197): each of the four
status-implied date controls becomes required exactly when the new status is
its status, and follow_up_on has its validators cleared unconditionally. -/
def onStatusChange (status : ApplicationStatus) (v : DateValidators) : DateValidators :=
  { applied_on := updateValidators v.applied_on (decide (status = ApplicationStatus.APPLIED))
    interview_on := updateValidators v.interview_on (decide (status = ApplicationStatus.INTERVIEW))
    offer_on := updateValidators v.offer_on (decide (status = ApplicationStatus.OFFER))
    rejected_on := updateValidators v.rejected_on (decide (status = ApplicationStatus.REJECTED))
    follow_up_on := false }

/-- Projection of a payload onto one of its five date fields. -/
def ApplicationPayload.dateField (p : ApplicationPayload) : DateField → Option String
  | DateField.applied_on => p.applied_on
  | DateField.interview_on => p.interview_on
  | DateField.offer_on => p.offer_on
  | DateField.rejected_on => p.rejected_on
  | DateField.follow_up_on => p.follow_up_on

/-- Projection of a form value onto one of its five date controls. -/
def FormValue.dateField (f : FormValue) : DateField → Option String
  | DateField.applied_on => f.applied_on
  | DateField.interview_on => f.interview_on
  | DateField.offer_on => f.offer_on
  | DateField.rejected_on => f.rejected_on
  | DateField.follow_up_on => f.follow_up_on

/-! Concrete fixtures used to evaluate the definitions. -/

/-- A fetched application that has a contact. -/
def appA : Application :=
  { id := 1
    job_title := "Backend Dev"
    company := { id := 3, name := "Acme", website := none, industry := "IT" }
    contact := some { id := 5, first_name := "Alice", last_name := "Smith",
                      email := "alice@acme.example", phone := "111",
                      position := "HR", company := 3 }
    status := ApplicationStatus.APPLIED
    applied_on := some "2024-01-01"
    interview_on := none
    offer_on := none
    rejected_on := none
    follow_up_on := none
    job_posting_link := ""
    salary_expectation := some 50000
    notes := [{ id := 11, text := "first note", created_at := "t1" }] }

/-- A fetched application whose contact is null. -/
def appB : Application :=
  { id := 2
    job_title := "Frontend Dev"
    company := { id := 4, name := "Globex", website := some "g.example", industry := "Web" }
    contact := none
    status := ApplicationStatus.DRAFT
    applied_on := none
    interview_on := none
    offer_on := none
    rejected_on := none
    follow_up_on := none
    job_posting_link := ""
    salary_expectation := none
    notes := [] }

/-- Edited contact form values with both names, a phone, and empty email and
position. -/
def cdJane : ContactFormValue :=
  { id := some 7, first_name := "Jane", last_name := "Doe", email := "",
    position := "", phone := "123" }

/-- Edited contact form values with every field cleared. -/
def cdCleared : ContactFormValue :=
  { id := some 7, first_name := "", last_name := "", email := "",
    position := "", phone := "" }

/-- A concrete full form value. -/
def fvSample : FormValue :=
  { job_title := "Backend Dev"
    salary_expectation := some 50000
    company_id := some 3
    status := ApplicationStatus.APPLIED
    applied_on := some "2024-01-02"
    interview_on := none
    offer_on := none
    rejected_on := none
    follow_up_on := none
    notes := [{ id := some 11, text := "first note" }]
    company := { name := "Acme", industry := "IT", website := some "" }
    contact := cdJane }

/-- The sample form value with the contact name fields cleared. -/
def fvCleared : FormValue :=
  { fvSample with contact := cdCleared }

/-- A create-mode form value for the end-to-end create scenario. -/
def fvEngineer : FormValue :=
  { fvSample with job_title := "Engineer", status := ApplicationStatus.DRAFT }

/-- A form value holding the falsy scalars 0 and the empty string. -/
def fvFalsy : FormValue :=
  { fvSample with salary_expectation := some 0, applied_on := some "" }

/-- The contact the store returns from a contact-create call. -/
def contactNew : Contact :=
  { id := 42, first_name := "Jane", last_name := "Doe", email := "",
    phone := "123", position := "", company := 3 }

/-- A store model on which every call succeeds; contact creation returns
`contactNew`. -/
def okHandler : ApiCall → Except ApiError Contact :=
  fun _ => Except.ok contactNew

/-- A store model on which every call fails with error code 500. -/
def errHandler : ApiCall → Except ApiError Contact :=
  fun _ => Except.error { code := 500 }

/-! Shared helper lemmas. -/

/-- The `x || null` idiom on strings never produces the empty string. -/
theorem strOrNull_ne_some_empty (v : Option String) : strOrNull v ≠ some "" := by
  cases v with
  | none => simp [strOrNull]
  | some s =>
    by_cases h : s = "" <;> simp [strOrNull, h]

/-- The `x || null` idiom on numbers never produces 0. -/
theorem intOrNull_ne_some_zero (v : Option Int) : intOrNull v ≠ some 0 := by
  cases v with
  | none => simp [intOrNull]
  | some n =>
    by_cases h : n = 0 <;> simp [intOrNull, h]

/-! Claim theorems. -/

/-- C1 (code bug exhibited): `loadApplicationForEdit` does not clear the
contact form group when the newly loaded application has a null contact.
Loading `appA` (whose contact is Alice Smith) and then `appB` (null contact)
into the same editor leaves the contact name fields from `appA` observable in
the resulting edit state, whereas loading `appB` into a fresh editor leaves
them empty. -/
theorem loadTwice_contact_field_leak :
    appB.contact = none ∧
    (loadApplicationForEdit (loadApplicationForEdit initialEditorState appA) appB).form.contact.first_name
      = "Alice" ∧
    (loadApplicationForEdit (loadApplicationForEdit initialEditorState appA) appB).form.contact.last_name
      = "Smith" ∧
    (loadApplicationForEdit initialEditorState appB).form.contact.first_name = "" :=
  ⟨rfl, rfl, rfl, rfl⟩

/-- C2 counterexample: with an original contact id 7 and edited values that
keep both names and change the phone, the resolved operation is an update of
contact 7 whose payload is NOT exactly the phone field — the claimed
phone-only payload is refuted at this input. -/
theorem contactDecision_update_payload_not_phone_only :
    contactDecision (some 7) fvSample cdJane ≠
      ContactOp.update 7 { first_name := none, last_name := none, email := none,
                           position := none, phone := some "123" } := by
  decide

/-- C2 (amended): the contact diff decision on the four literal table inputs.
No original contact and both names present gives a create; original contact 7
and cleared names gives a delete of 7; original contact 7, both names present
and a non-empty phone gives an update of 7 whose payload holds every
non-empty edited field — here first_name, last_name and phone — not the
phone alone; no original contact and cleared names gives no operation. -/
theorem contactDecision_table (fv : FormValue) :
    contactDecision none fv cdJane =
      ContactOp.create { first_name := "Jane", last_name := "Doe",
                         company_id := fv.company_id, email := none,
                         position := none, phone := some "123" } ∧
    contactDecision (some 7) fv cdCleared = ContactOp.delete 7 ∧
    contactDecision (some 7) fv cdJane =
      ContactOp.update 7 { first_name := some "Jane", last_name := some "Doe",
                           email := none, position := none, phone := some "123" } ∧
    contactDecision none fv cdCleared = ContactOp.noop :=
  ⟨rfl, rfl, rfl, rfl⟩

/-- C3: when the resolved contact operation is a create and the store resolves
the create call with contact `c`, the issued-call trace is exactly the create
call followed by the application update and the company update, and the
application update payload carries `c.id` as its contact id. -/
theorem createContact_precedes_application_update (appId : String) (fv : FormValue)
    (cd : ContactFormValue) (h : ApiCall → Except ApiError Contact) (c : Contact)
    (hok : h (ApiCall.createContact (buildCreateContactPayload fv cd)) = Except.ok c) :
    (runProgram h (handleCreateContactAndUpdates appId fv cd)).1 =
      [ApiCall.createContact (buildCreateContactPayload fv cd),
       ApiCall.updateApplication appId (buildApplicationPayload fv (some c.id)),
       ApiCall.updateCompany fv.company_id (buildCompanyPayload fv)] ∧
    (buildApplicationPayload fv (some c.id)).contact_id = some c.id := by
  constructor
  · simp [handleCreateContactAndUpdates, runProgram, hok]
  · rfl

/-- Witness for C3 at a concrete form value and store model. -/
theorem createContact_precedes_application_update_witness :
    (runProgram okHandler (handleCreateContactAndUpdates "12" fvSample cdJane)).1 =
      [ApiCall.createContact (buildCreateContactPayload fvSample cdJane),
       ApiCall.updateApplication "12" (buildApplicationPayload fvSample (some 42)),
       ApiCall.updateCompany fvSample.company_id (buildCompanyPayload fvSample)] ∧
    (buildApplicationPayload fvSample (some 42)).contact_id = some 42 :=
  createContact_precedes_application_update "12" fvSample cdJane okHandler contactNew rfl

/-- C4: when the resolved contact operation is a create and the create call
fails with error `e`, the only issued call is the contact create — the
application and company updates are never issued — and the overall outcome is
the failure carrying `e`. -/
theorem createContact_failure_aborts (appId : String) (fv : FormValue)
    (cd : ContactFormValue) (h : ApiCall → Except ApiError Contact) (e : ApiError)
    (herr : h (ApiCall.createContact (buildCreateContactPayload fv cd)) = Except.error e) :
    runProgram h (handleCreateContactAndUpdates appId fv cd) =
      ([ApiCall.createContact (buildCreateContactPayload fv cd)], some e) := by
  simp [handleCreateContactAndUpdates, runProgram, herr]

/-- Witness for C4 at a concrete form value and an always-failing store. -/
theorem createContact_failure_aborts_witness :
    runProgram errHandler (handleCreateContactAndUpdates "12" fvSample cdJane) =
      ([ApiCall.createContact (buildCreateContactPayload fvSample cdJane)],
       some { code := 500 }) :=
  createContact_failure_aborts "12" fvSample cdJane errHandler { code := 500 } rfl

/-- C5: in edit mode with an original contact id 9 and cleared edited contact
names, submission builds a single forkJoin phase holding exactly three calls —
delete contact 9, update the application with a null contact id, and update
the company — with no ordering dependency among them. -/
theorem cleared_contact_three_calls_one_phase (appId : String) (fv : FormValue)
    (h1 : fv.contact.first_name = "") (h2 : fv.contact.last_name = "") :
    onSubmitEdit appId (some 9) fv =
      SubmitProgram.allOf
        [ApiCall.deleteContact 9,
         ApiCall.updateApplication appId (buildApplicationPayload fv none),
         ApiCall.updateCompany fv.company_id (buildCompanyPayload fv)] ∧
    (buildApplicationPayload fv none).contact_id = none := by
  constructor
  · simp [onSubmitEdit, contactFormHasData, h1, h2, idTruthy, handleUpdates]
  · rfl

/-- Witness for C5 at the concrete cleared form value. -/
theorem cleared_contact_three_calls_one_phase_witness :
    onSubmitEdit "12" (some 9) fvCleared =
      SubmitProgram.allOf
        [ApiCall.deleteContact 9,
         ApiCall.updateApplication "12" (buildApplicationPayload fvCleared none),
         ApiCall.updateCompany fvCleared.company_id (buildCompanyPayload fvCleared)] ∧
    (buildApplicationPayload fvCleared none).contact_id = none :=
  cleared_contact_three_calls_one_phase "12" fvCleared rfl rfl

/-- C6: in create mode with title Engineer, company id 3 and status DRAFT, a
valid submission issues exactly one call, an application create, whose payload
has no notes key and a null contact id. -/
theorem create_mode_single_create_call (fv : FormValue)
    (ht : fv.job_title = "Engineer") (hc : fv.company_id = some 3)
    (hs : fv.status = ApplicationStatus.DRAFT) :
    onSubmitCreate fv =
      SubmitProgram.allOf [ApiCall.createApplication (createModeApplicationPayload fv)] ∧
    (createModeApplicationPayload fv).notes = none ∧
    (createModeApplicationPayload fv).contact_id = none ∧
    (createModeApplicationPayload fv).job_title = "Engineer" ∧
    (createModeApplicationPayload fv).company_id = some 3 ∧
    (createModeApplicationPayload fv).status = ApplicationStatus.DRAFT :=
  ⟨rfl, rfl, rfl, by simp [createModeApplicationPayload, ht],
   by simp [createModeApplicationPayload, hc],
   by simp [createModeApplicationPayload, hs]⟩

/-- Witness for C6 at the concrete Engineer form value. -/
theorem create_mode_single_create_call_witness :
    onSubmitCreate fvEngineer =
      SubmitProgram.allOf [ApiCall.createApplication (createModeApplicationPayload fvEngineer)] ∧
    (createModeApplicationPayload fvEngineer).notes = none ∧
    (createModeApplicationPayload fvEngineer).contact_id = none ∧
    (createModeApplicationPayload fvEngineer).job_title = "Engineer" ∧
    (createModeApplicationPayload fvEngineer).company_id = some 3 ∧
    (createModeApplicationPayload fvEngineer).status = ApplicationStatus.DRAFT :=
  create_mode_single_create_call fvEngineer rfl rfl rfl

/-- C7: under the update branch precondition (both edited names non-empty),
the update payload carries the two names, and each optional field (email,
position, phone) is present exactly when its edited value is non-empty; the
payload structure has no id field at all, mirroring the destructuring that
drops it. -/
theorem update_contact_payload_exact_fields (cd : ContactFormValue)
    (h1 : cd.first_name ≠ "") (h2 : cd.last_name ≠ "") :
    (buildUpdateContactPayload cd).first_name = some cd.first_name ∧
    (buildUpdateContactPayload cd).last_name = some cd.last_name ∧
    (buildUpdateContactPayload cd).email
      = (if cd.email = "" then none else some cd.email) ∧
    (buildUpdateContactPayload cd).position
      = (if cd.position = "" then none else some cd.position) ∧
    (buildUpdateContactPayload cd).phone
      = (if cd.phone = "" then none else some cd.phone) := by
  refine ⟨?_, ?_, rfl, rfl, rfl⟩ <;>
    simp [buildUpdateContactPayload, keepTruthy, h1, h2]

/-- Witness for C7 at the concrete edited contact values. -/
theorem update_contact_payload_exact_fields_witness :
    (buildUpdateContactPayload cdJane).first_name = some cdJane.first_name ∧
    (buildUpdateContactPayload cdJane).last_name = some cdJane.last_name ∧
    (buildUpdateContactPayload cdJane).email
      = (if cdJane.email = "" then none else some cdJane.email) ∧
    (buildUpdateContactPayload cdJane).position
      = (if cdJane.position = "" then none else some cdJane.position) ∧
    (buildUpdateContactPayload cdJane).phone
      = (if cdJane.phone = "" then none else some cdJane.phone) :=
  update_contact_payload_exact_fields cdJane (by decide) (by decide)

/-- C8: the required-validator flags after a status change are a function of
the status alone (the previous flags are discarded); each of the four
status-implied date controls is required exactly for its own status — so
DRAFT and WITHDRAWN require no date — and follow_up_on is never required. -/
theorem requiredDateField_of_status (s : ApplicationStatus) (v w : DateValidators) :
    onStatusChange s v = onStatusChange s w ∧
    ((onStatusChange s v).applied_on = true ↔ s = ApplicationStatus.APPLIED) ∧
    ((onStatusChange s v).interview_on = true ↔ s = ApplicationStatus.INTERVIEW) ∧
    ((onStatusChange s v).offer_on = true ↔ s = ApplicationStatus.OFFER) ∧
    ((onStatusChange s v).rejected_on = true ↔ s = ApplicationStatus.REJECTED) ∧
    (onStatusChange s v).follow_up_on = false := by
  cases s <;> simp [onStatusChange, updateValidators]

/-- C9: both application payload builders map the falsy scalars to null: no
date field of a built payload is ever the empty string and the salary is never
0; when the form holds an empty-string date or a 0 salary, the corresponding
payload field is null. -/
theorem falsy_scalars_mapped_to_null (fv : FormValue) (cid : Option Nat) (d : DateField) :
    ((buildApplicationPayload fv cid).dateField d ≠ some "" ∧
     (createModeApplicationPayload fv).dateField d ≠ some "") ∧
    (fv.dateField d = some "" →
      (buildApplicationPayload fv cid).dateField d = none ∧
      (createModeApplicationPayload fv).dateField d = none) ∧
    ((buildApplicationPayload fv cid).salary_expectation ≠ some 0 ∧
     (createModeApplicationPayload fv).salary_expectation ≠ some 0) ∧
    (fv.salary_expectation = some 0 →
      (buildApplicationPayload fv cid).salary_expectation = none ∧
      (createModeApplicationPayload fv).salary_expectation = none) := by
  refine ⟨?_, ?_, ⟨intOrNull_ne_some_zero _, intOrNull_ne_some_zero _⟩, ?_⟩
  · cases d <;>
      simp [buildApplicationPayload, createModeApplicationPayload,
            ApplicationPayload.dateField, strOrNull_ne_some_empty]
  · intro hd
    cases d <;>
      simp_all [buildApplicationPayload, createModeApplicationPayload,
                ApplicationPayload.dateField, FormValue.dateField, strOrNull]
  · intro hs
    simp [buildApplicationPayload, createModeApplicationPayload, hs, intOrNull]

/-- Witness for C9 at the concrete form value holding the falsy scalars. -/
theorem falsy_scalars_mapped_to_null_witness :
    ((buildApplicationPayload fvFalsy none).dateField DateField.applied_on = none) ∧
    (createModeApplicationPayload fvFalsy).salary_expectation = none :=
  ⟨((falsy_scalars_mapped_to_null fvFalsy none DateField.applied_on).2.1 rfl).1,
   ((falsy_scalars_mapped_to_null fvFalsy none DateField.applied_on).2.2.2 rfl).2⟩

/-- C10: under the update branch precondition (truthy original contact id,
both edited names non-empty), the built payload is never empty — the
empty-payload guard is unreachable — and `handleUpdates` issues the
contact-update call together with the application and company updates. -/
theorem update_branch_always_calls_updateContact (appId : String) (cid : Nat)
    (fv : FormValue) (cd : ContactFormValue)
    (hcid : cid ≠ 0) (h1 : cd.first_name ≠ "") (h2 : cd.last_name ≠ "") :
    (buildUpdateContactPayload cd).isEmpty = false ∧
    handleUpdates appId (some cid) fv cd (contactFormHasData cd) =
      SubmitProgram.allOf
        [ApiCall.updateContact cid (buildUpdateContactPayload cd),
         ApiCall.updateApplication appId (buildApplicationPayload fv (some cid)),
         ApiCall.updateCompany fv.company_id (buildCompanyPayload fv)] := by
  have hempty : (buildUpdateContactPayload cd).isEmpty = false := by
    simp [buildUpdateContactPayload, UpdateContactPayload.isEmpty, keepTruthy, h1]
  refine ⟨hempty, ?_⟩
  simp [handleUpdates, contactFormHasData, h1, h2, hcid, hempty]

/-- Witness for C10 at the concrete edited contact values. -/
theorem update_branch_always_calls_updateContact_witness :
    (buildUpdateContactPayload cdJane).isEmpty = false ∧
    handleUpdates "12" (some 7) fvSample cdJane (contactFormHasData cdJane) =
      SubmitProgram.allOf
        [ApiCall.updateContact 7 (buildUpdateContactPayload cdJane),
         ApiCall.updateApplication "12" (buildApplicationPayload fvSample (some 7)),
         ApiCall.updateCompany fvSample.company_id (buildCompanyPayload fvSample)] :=
  update_branch_always_calls_updateContact "12" 7 fvSample cdJane
    (by decide) (by decide) (by decide)

end AppTracker
